import Mathlib

/-!
Verification of the reconcile behaviour of two Ansible cloud modules:
`cloud/amazon/elasticache_parameter_group.py` and `cloud/amazon/kinesis.py`.

The modules are shallowly embedded: the remote API client is a record of
functions (one per API call the module can issue), module parameters are a
record mirroring `module.params`, and running a module yields the terminal
result (`exit_json` / `fail_json`) together with the ordered list of API
calls issued.
-/

/-- A boto `BotoServerError`: the fields the module inspects. -/
structure BotoServerError where
  error_code : String
  error_message : String
  deriving DecidableEq, Repr

/-- Terminal outcome of a module run: `module.exit_json(changed=...)` or
`module.fail_json(msg=...)`. -/
inductive ModuleResult where
  | exit (changed : Bool)
  | fail (msg : String)
  deriving DecidableEq, Repr

/-- Python `str.lower()` as the module applies it to the group name
(ASCII identifiers): each character is lowercased. -/
def pyLower (s : String) : String := ⟨s.data.map Char.toLower⟩

/-- Python truthiness of an optional string parameter
(`module.params.get(x)`): `None` and the empty string are falsy. -/
def truthyStr : Option String → Bool
  | none => false
  | some s => s != ""

/-- Python truthiness of an optional list parameter: `None` and `[]` are falsy. -/
def truthyList : Option (List (String × String)) → Bool
  | none => false
  | some l => l != []

/-- The parameters of `elasticache_parameter_group.py` (its `argument_spec`).
`state` is constrained by `AnsibleModule` to `"present"` or `"absent"`;
`name` is required (an empty string still passes the spec). -/
structure ECParams where
  state : String
  name : String
  description : Option String
  cache_parameter_group_family : Option String
  parameter_name_values : Option (List (String × String))
  deriving DecidableEq, Repr

/-- One API call of the elasticache module, with the arguments the
connection object receives. -/
inductive APICall where
  | describe (name : String)
  | delete (name : String)
  | create (name : String) (family : Option String) (description : Option String)
  | modify (name : String) (values : Option (List (String × String)))
  deriving DecidableEq, Repr

/-- The elasticache connection: each boto call either returns or raises a
`BotoServerError`. `describe_cache_parameter_groups` returns the list of
matching groups. -/
structure ECConn where
  describe_cache_parameter_groups : String → Except BotoServerError (List String)
  delete_cache_parameter_group : String → Except BotoServerError Unit
  create_cache_parameter_group :
    String → Option String → Option String → Except BotoServerError Unit
  modify_cache_parameter_group :
    String → Option (List (String × String)) → Except BotoServerError Unit

/-- The message the outer `except BotoServerError` handler treats as benign. -/
def noModsMsg : String := "No modifications were requested."

/-- The branch on `(state, exists)` (lines 142-162 of the source), run inside
the outer `try`: a `BotoServerError` raised by `delete` / `create` / `modify`
with message `noModsMsg` leaves `changed = False` and the run succeeds; any
other message is fatal.  Returns the result and the mutating calls issued. -/
def ec_branch (p : ECParams) (conn : ECConn) (group_name : String)
    (found : Bool) : ModuleResult × List APICall :=
  if p.state == "absent" then
    if found then
      match conn.delete_cache_parameter_group group_name with
      | .ok _ => (.exit true, [.delete group_name])
      | .error e =>
        if e.error_message != noModsMsg then (.fail e.error_message, [.delete group_name])
        else (.exit false, [.delete group_name])
    else
      (.exit false, [])
  else
    if !found then
      if !truthyStr p.cache_parameter_group_family then
        (.fail "Parameter cache_parameter_group_family required for state='present' and does not exist", [])
      else
        match conn.create_cache_parameter_group group_name
            p.cache_parameter_group_family p.description with
        | .ok _ =>
          (.exit true, [.create group_name p.cache_parameter_group_family p.description])
        | .error e =>
          if e.error_message != noModsMsg then
            (.fail e.error_message, [.create group_name p.cache_parameter_group_family p.description])
          else
            (.exit false, [.create group_name p.cache_parameter_group_family p.description])
    else
      if !truthyList p.parameter_name_values then
        (.fail "Parameter parameter_name_values required for state='present' and exists", [])
      else
        match conn.modify_cache_parameter_group group_name p.parameter_name_values with
        | .ok _ => (.exit true, [.modify group_name p.parameter_name_values])
        | .error e =>
          if e.error_message != noModsMsg then
            (.fail e.error_message, [.modify group_name p.parameter_name_values])
          else
            (.exit false, [.modify group_name p.parameter_name_values])

/-- The outer `try` block (lines 131-168): describe the group; a
`BotoServerError` whose `error_code` is not `CacheParameterGroupNotFound` is
fatal, the not-found code leaves `exists = False`; otherwise
`exists = len(matching_groups) > 0`. -/
def ec_try (p : ECParams) (conn : ECConn) (group_name : String) :
    ModuleResult × List APICall :=
  match conn.describe_cache_parameter_groups group_name with
  | .error e =>
    if e.error_code != "CacheParameterGroupNotFound" then
      (.fail e.error_message, [.describe group_name])
    else
      let r := ec_branch p conn group_name false
      (r.1, .describe group_name :: r.2)
  | .ok matching_groups =>
    let r := ec_branch p conn group_name (matching_groups.length > 0)
    (r.1, .describe group_name :: r.2)

/-- `main()` of `elasticache_parameter_group.py`: lowercase the name
(line 101), validate the parameter combination for the chosen state
(lines 107-115, before any connection or API call), then reconcile.
Region lookup and connection construction (environment concerns) are
assumed to succeed. -/
def ec_main (p : ECParams) (conn : ECConn) : ModuleResult × List APICall :=
  let group_name := pyLower p.name
  if p.state == "present" then
    if p.name == "" then
      (.fail "Parameter name required for state='present'", [])
    else if !truthyStr p.description then
      (.fail "Parameter description required for state='present'", [])
    else
      ec_try p conn group_name
  else
    if truthyStr p.description then
      (.fail "Parameter description not allowed for state='absent'", [])
    else if truthyStr p.cache_parameter_group_family then
      (.fail "Parameter cache_parameter_group_family not allowed for state='absent'", [])
    else if truthyList p.parameter_name_values then
      (.fail "Parameter parameter_name_values not allowed for state='absent'", [])
    else
      ec_try p conn group_name

/-- True for the mutating elasticache calls (`delete`, `create`, `modify`);
`describe` is read-only. -/
def isMutating : APICall → Bool
  | .describe _ => false
  | _ => true

/-- The resource name an elasticache API call carries. -/
def callName : APICall → String
  | .describe n => n
  | .delete n => n
  | .create n _ _ => n
  | .modify n _ => n

/-- Whether a module run ended in `fail_json`. -/
def isFail : ModuleResult → Bool
  | .fail _ => true
  | .exit _ => false

/-- A describe outcome the module maps to `exists = false`: an empty match
list, or a `BotoServerError` with code `CacheParameterGroupNotFound`. -/
def reportsNotFound : Except BotoServerError (List String) → Bool
  | .ok l => l.isEmpty
  | .error e => e.error_code == "CacheParameterGroupNotFound"

/-- A describe outcome the module maps to `exists = true`: a non-empty
match list. -/
def reportsFound : Except BotoServerError (List String) → Bool
  | .ok l => !l.isEmpty
  | .error _ => false

/-- Outcome of one mutating call under the outer handler: success means
`changed = true`; a `BotoServerError` with the benign message means
`changed = false`; any other error message is fatal. -/
def mutOutcome : Except BotoServerError Unit → ModuleResult
  | .ok _ => .exit true
  | .error e => if e.error_message != noModsMsg then .fail e.error_message else .exit false

/-! ## A faithful world for sequential runs

To state what two back-to-back runs do, the remote service is modelled by
the set of existing group names; the connection answers describes from it
and every mutating call succeeds, and the world is advanced by the calls
the run issued. -/

/-- The connection backed by a world `w` (the list of existing group
names): describe returns the matching groups or raises the not-found
code, and every mutating call succeeds. -/
def honestConn (w : List String) : ECConn where
  describe_cache_parameter_groups n :=
    if w.contains n then .ok (w.filter (· == n))
    else .error ⟨"CacheParameterGroupNotFound", "CacheParameterGroup not found: " ++ n⟩
  delete_cache_parameter_group _ := .ok ()
  create_cache_parameter_group _ _ _ := .ok ()
  modify_cache_parameter_group _ _ := .ok ()

/-- Effect of one successful API call on the set of existing groups. -/
def applyCall (w : List String) : APICall → List String
  | .delete n => w.filter (· != n)
  | .create n _ _ => n :: w
  | _ => w

/-- One module invocation against world `w`: the result, and the world
after the issued calls took effect. -/
def runStep (p : ECParams) (w : List String) : ModuleResult × List String :=
  let r := ec_main p (honestConn w)
  (r.1, r.2.foldl applyCall w)

/-! ## kinesis.py -/

/-- The parameters of `kinesis.py`: both required, `shard_count` an int. -/
structure KinesisParams where
  name : String
  shard_count : Int
  deriving DecidableEq, Repr

/-- One API call of the kinesis module, with the arguments the boto3
client receives. -/
inductive KCall where
  | describe_stream (name : String)
  | create_stream (name : String) (shard_count : Int)
  deriving DecidableEq, Repr

/-- The boto3 kinesis client: each call either returns or raises; the
module only ever uses `str(e)` of a raised exception. -/
structure KinesisClient where
  describe_stream : String → Except String Unit
  create_stream : String → Int → Except String Unit

namespace KinesisManager

/-- `KinesisManager.exists` (lines 67-73): a successful describe returns
`True`; ANY exception — including a not-found error — reaches
`module.fail_json`, which terminates the module. No path returns `False`. -/
def streamExists (c : KinesisClient) (name : String) : Except String Bool :=
  match c.describe_stream name with
  | .ok _ => .ok true
  | .error e => .error e

/-- `KinesisManager.create` (lines 56-65): if the stream exists,
`changed = False`; otherwise create it. Because `streamExists` never
returns `false`, the create branch is reachable only in the embedding's
dead case. -/
def create (c : KinesisClient) (name : String) (shard_count : Int) :
    ModuleResult × List KCall :=
  match streamExists c name with
  | .error e => (.fail e, [.describe_stream name])
  | .ok found =>
    if found then
      (.exit false, [.describe_stream name])
    else
      match c.create_stream name shard_count with
      | .ok _ => (.exit true, [.describe_stream name, .create_stream name shard_count])
      | .error e => (.fail e, [.describe_stream name, .create_stream name shard_count])

end KinesisManager

/-- `main()` of `kinesis.py`: the name is taken verbatim from the
parameters (line 99, no case normalization), the manager's `create` runs,
and the module exits with its `changed` flag. -/
def kinesis_main (p : KinesisParams) (c : KinesisClient) :
    ModuleResult × List KCall :=
  KinesisManager.create c p.name p.shard_count

/-- The stream name a kinesis API call carries. -/
def kCallName : KCall → String
  | .describe_stream n => n
  | .create_stream n _ => n

/-- True for the mutating kinesis call. -/
def isKMutating : KCall → Bool
  | .describe_stream _ => false
  | .create_stream _ _ => true

/-! ## Helper lemmas: the shape of a run -/

/-- The branch issues no call or exactly one mutating call on the given
group name. -/
theorem ec_branch_trace (p : ECParams) (conn : ECConn) (n : String) (f : Bool) :
    (ec_branch p conn n f).2 = [] ∨ (ec_branch p conn n f).2 = [.delete n] ∨
    (ec_branch p conn n f).2 = [.create n p.cache_parameter_group_family p.description] ∨
    (ec_branch p conn n f).2 = [.modify n p.parameter_name_values] := by
  unfold ec_branch
  repeat' (split <;> try simp)

/-- The reconcile body issues the describe call first, then at most one
mutating call on the same name. -/
theorem ec_try_trace (p : ECParams) (conn : ECConn) (n : String) :
    ∃ t, (ec_try p conn n).2 = .describe n :: t ∧
      (t = [] ∨ t = [.delete n] ∨
       t = [.create n p.cache_parameter_group_family p.description] ∨
       t = [.modify n p.parameter_name_values]) := by
  unfold ec_try
  rcases hdesc : conn.describe_cache_parameter_groups n with e | l
  · dsimp only
    cases hcode : (e.error_code != "CacheParameterGroupNotFound") with
    | true => simp [hcode]
    | false =>
      simp only [hcode, Bool.false_eq_true, if_false]
      exact ⟨_, rfl, ec_branch_trace p conn n false⟩
  · dsimp only
    exact ⟨_, rfl, ec_branch_trace p conn n _⟩

/-- A full run issues either no call (validation failed) or a describe on
the lowercased name followed by at most one mutating call on it. -/
theorem ec_main_trace (p : ECParams) (conn : ECConn) :
    (ec_main p conn).2 = [] ∨
    ∃ t, (ec_main p conn).2 = .describe (pyLower p.name) :: t ∧
      (t = [] ∨ t = [.delete (pyLower p.name)] ∨
       t = [.create (pyLower p.name) p.cache_parameter_group_family p.description] ∨
       t = [.modify (pyLower p.name) p.parameter_name_values]) := by
  unfold ec_main
  dsimp only
  repeat'
    (split <;>
      first
        | exact Or.inr (ec_try_trace p conn (pyLower p.name))
        | try simp)

/-- With state absent and a not-found describe outcome, the run issues at
most the describe call. -/
theorem ec_main_absent_not_found (p : ECParams) (conn : ECConn)
    (hstate : p.state = "absent")
    (hnf : reportsNotFound (conn.describe_cache_parameter_groups (pyLower p.name)) = true) :
    (ec_main p conn).2 = [] ∨ (ec_main p conn).2 = [.describe (pyLower p.name)] := by
  unfold ec_main
  dsimp only
  have hpres : (p.state == "present") = false := by simp [hstate]
  rw [hpres]
  simp only [Bool.false_eq_true, if_false]
  cases hd : truthyStr p.description with
  | true => simp
  | false =>
    cases hf : truthyStr p.cache_parameter_group_family with
    | true => simp
    | false =>
      cases hv : truthyList p.parameter_name_values with
      | true => simp
      | false =>
        simp only [Bool.false_eq_true, if_false]
        unfold ec_try
        rcases hdesc : conn.describe_cache_parameter_groups (pyLower p.name) with e | l
        · rw [hdesc] at hnf
          have hcode : (e.error_code != "CacheParameterGroupNotFound") = false := by
            simp [reportsNotFound] at hnf
            simp [hnf]
          dsimp only
          rw [hcode]
          simp only [Bool.false_eq_true, if_false]
          right
          simp [ec_branch, hstate]
        · rw [hdesc] at hnf
          simp only [reportsNotFound, List.isEmpty_iff] at hnf
          subst hnf
          dsimp only
          right
          simp [ec_branch, hstate]

/-- Absent branch on a non-existing group: no call, changed = false. -/
theorem ec_branch_absent_no_group (p : ECParams) (conn : ECConn) (n : String)
    (hstate : p.state = "absent") :
    ec_branch p conn n false = (.exit false, []) := by
  unfold ec_branch
  simp [hstate]

/-- Absent branch on an existing group: one delete call, outcome per the
outer handler. -/
theorem ec_branch_absent_found (p : ECParams) (conn : ECConn) (n : String)
    (hstate : p.state = "absent") :
    ec_branch p conn n true =
      (mutOutcome (conn.delete_cache_parameter_group n), [.delete n]) := by
  unfold ec_branch
  have h : (p.state == "absent") = true := by simp [hstate]
  rw [h]
  simp only [if_true]
  rcases conn.delete_cache_parameter_group n with e | u
  · simp only [mutOutcome]
    split <;> simp_all
  · rfl

/-- Present branch on a non-existing group with a truthy family: one
create call, outcome per the outer handler. -/
theorem ec_branch_present_create (p : ECParams) (conn : ECConn) (n : String)
    (hstate : p.state = "present")
    (hfam : truthyStr p.cache_parameter_group_family = true) :
    ec_branch p conn n false =
      (mutOutcome (conn.create_cache_parameter_group n
          p.cache_parameter_group_family p.description),
       [.create n p.cache_parameter_group_family p.description]) := by
  unfold ec_branch
  have h : (p.state == "absent") = false := by simp [hstate]
  rw [h]
  simp only [Bool.false_eq_true, if_false, Bool.not_false, if_true, hfam, Bool.not_true]
  rcases conn.create_cache_parameter_group n p.cache_parameter_group_family p.description
    with e | u
  · simp only [mutOutcome]
    split <;> simp_all
  · rfl

/-- Present branch on an existing group with truthy parameter values: one
modify call, outcome per the outer handler. -/
theorem ec_branch_present_modify (p : ECParams) (conn : ECConn) (n : String)
    (hstate : p.state = "present")
    (hvals : truthyList p.parameter_name_values = true) :
    ec_branch p conn n true =
      (mutOutcome (conn.modify_cache_parameter_group n p.parameter_name_values),
       [.modify n p.parameter_name_values]) := by
  unfold ec_branch
  have h : (p.state == "absent") = false := by simp [hstate]
  rw [h]
  simp only [Bool.false_eq_true, if_false, Bool.not_true, hvals]
  rcases conn.modify_cache_parameter_group n p.parameter_name_values with e | u
  · simp only [mutOutcome]
    split <;> simp_all
  · rfl

/-- Present branch on an existing group without parameter values: the run
fails validation and issues no mutating call. -/
theorem ec_branch_present_no_values (p : ECParams) (conn : ECConn) (n : String)
    (hstate : p.state = "present")
    (hvals : truthyList p.parameter_name_values = false) :
    ec_branch p conn n true =
      (.fail "Parameter parameter_name_values required for state='present' and exists", []) := by
  unfold ec_branch
  have h : (p.state == "absent") = false := by simp [hstate]
  rw [h]
  simp [hvals]

/-- A found describe outcome routes the run into the branch with
`exists = true`, after the describe call. -/
theorem ec_try_found (p : ECParams) (conn : ECConn) (n : String)
    (hfound : reportsFound (conn.describe_cache_parameter_groups n) = true) :
    ec_try p conn n =
      ((ec_branch p conn n true).1, .describe n :: (ec_branch p conn n true).2) := by
  unfold ec_try
  rcases hdesc : conn.describe_cache_parameter_groups n with e | l
  · rw [hdesc] at hfound
    simp [reportsFound] at hfound
  · rw [hdesc] at hfound
    simp only [reportsFound, Bool.not_eq_true'] at hfound
    dsimp only
    have hlen : decide (0 < l.length) = true := by
      simp only [List.isEmpty_eq_false_iff_exists_mem] at hfound
      rcases hfound with ⟨x, hx⟩
      simp [List.length_pos_iff_exists_mem]
      exact ⟨x, hx⟩
    rw [hlen]

/-- A not-found describe outcome routes the run into the branch with
`exists = false`, after the describe call. -/
theorem ec_try_not_found (p : ECParams) (conn : ECConn) (n : String)
    (hnf : reportsNotFound (conn.describe_cache_parameter_groups n) = true) :
    ec_try p conn n =
      ((ec_branch p conn n false).1, .describe n :: (ec_branch p conn n false).2) := by
  unfold ec_try
  rcases hdesc : conn.describe_cache_parameter_groups n with e | l
  · rw [hdesc] at hnf
    simp only [reportsNotFound] at hnf
    dsimp only
    have hcode : (e.error_code != "CacheParameterGroupNotFound") = false := by
      simp only [bne, hnf, Bool.not_true]
    rw [hcode]
    simp only [Bool.false_eq_true, if_false]
  · rw [hdesc] at hnf
    simp only [reportsNotFound, List.isEmpty_iff] at hnf
    subst hnf
    dsimp only
    rfl

/-- With state absent and no disallowed attribute supplied, validation
passes and the run is the reconcile body. -/
theorem ec_main_absent_valid (p : ECParams) (conn : ECConn)
    (hstate : p.state = "absent")
    (hd : truthyStr p.description = false)
    (hf : truthyStr p.cache_parameter_group_family = false)
    (hv : truthyList p.parameter_name_values = false) :
    ec_main p conn = ec_try p conn (pyLower p.name) := by
  unfold ec_main
  have hpres : (p.state == "present") = false := by simp [hstate]
  simp [hpres, hd, hf, hv]

/-- With state present and a nonempty name and truthy description,
validation passes and the run is the reconcile body. -/
theorem ec_main_present_valid (p : ECParams) (conn : ECConn)
    (hstate : p.state = "present") (hname : p.name ≠ "")
    (hd : truthyStr p.description = true) :
    ec_main p conn = ec_try p conn (pyLower p.name) := by
  unfold ec_main
  have hpres : (p.state == "present") = true := by simp [hstate]
  have hne : (p.name == "") = false := by simp [hname]
  simp [hpres, hne, hd]

/-- Describing a group present in the world reports it found. -/
theorem honestConn_found (w : List String) (n : String) (h : w.contains n = true) :
    reportsFound ((honestConn w).describe_cache_parameter_groups n) = true := by
  simp only [honestConn, h, if_true, reportsFound]
  have hmem : n ∈ w := by
    simpa using h
  simp only [Bool.not_eq_true', List.isEmpty_eq_false_iff_exists_mem]
  exact ⟨n, List.mem_filter.mpr ⟨hmem, by simp⟩⟩

/-- Describing a group absent from the world reports it not found. -/
theorem honestConn_not_found (w : List String) (n : String) (h : w.contains n = false) :
    reportsNotFound ((honestConn w).describe_cache_parameter_groups n) = true := by
  have hmem : n ∉ w := by simpa using h
  simp [honestConn, hmem, reportsNotFound]

/-- A name never survives a filter that removes it. -/
theorem filter_ne_contains_false (w : List String) (n : String) :
    ((w.filter (fun x => x != n)).contains n) = false := by
  have h : n ∉ w.filter (fun x => x != n) := by
    intro hmem
    rcases List.mem_filter.mp hmem with ⟨_, hne⟩
    simp at hne
  simpa using h

/-! ## Concrete inputs used by witnesses and counterexamples -/

/-- A valid absent-state desired state. -/
def pAbs : ECParams := ⟨"absent", "g", none, none, none⟩

/-- A present-state desired state with description and family but no
parameter values: exactly what the module example playbook supplies when
first creating a group. -/
def pCreateOnly : ECParams :=
  ⟨"present", "Redis_2.8_LRU", some "My Fancy Parameter Group", some "redis2.8", none⟩

/-- A present-state desired state without parameter values against an
existing group. -/
def pNoValues : ECParams := ⟨"present", "g", some "d", none, none⟩

/-- A present-state desired state carrying one parameter update. -/
def pModify : ECParams :=
  ⟨"present", "g", some "d", none, some [("activerehashing", "yes")]⟩

/-- A kinesis client whose describe succeeds: the stream exists. -/
def kinesisOkClient : KinesisClient where
  describe_stream _ := .ok ()
  create_stream _ _ := .ok ()

/-- A kinesis client whose describe raises the not-found client error. -/
def kinesisNotFoundClient : KinesisClient where
  describe_stream n := .error ("ResourceNotFoundException: Stream " ++ n ++ " not found")
  create_stream _ _ := .ok ()

/-- A connection that finds the group and answers every mutating call with
the benign no-modifications error. -/
def noModsConnFound : ECConn where
  describe_cache_parameter_groups _ := .ok ["g"]
  delete_cache_parameter_group _ :=
    .error ⟨"InvalidParameterCombination", "No modifications were requested."⟩
  create_cache_parameter_group _ _ _ :=
    .error ⟨"InvalidParameterCombination", "No modifications were requested."⟩
  modify_cache_parameter_group _ _ :=
    .error ⟨"InvalidParameterCombination", "No modifications were requested."⟩

/-- A connection that reports the group not found and answers every
mutating call with a non-benign server error. -/
def errConnNotFound : ECConn where
  describe_cache_parameter_groups _ :=
    .error ⟨"CacheParameterGroupNotFound", "CacheParameterGroup not found"⟩
  delete_cache_parameter_group _ := .error ⟨"InvalidParameterValue", "Some other failure"⟩
  create_cache_parameter_group _ _ _ := .error ⟨"InvalidParameterValue", "Some other failure"⟩
  modify_cache_parameter_group _ _ := .error ⟨"InvalidParameterValue", "Some other failure"⟩

/-! ## Claims -/

/-- Claim C1, counterexample: running the parameter-group module twice
with the identical present-state desired state (the documented creation
playbook: description and family, no parameter values) yields
changed = true on the first run but a validation failure — not a
changed = false success — on the second. -/
theorem reconcile_twice_present_second_fails :
    (runStep pCreateOnly []).1 = .exit true ∧
    (runStep pCreateOnly (runStep pCreateOnly []).2).1 =
      .fail "Parameter parameter_name_values required for state='present' and exists" :=
  ⟨rfl, rfl⟩

/-- Claim C1, amended: with state absent (no disallowed attributes) on an
existing group, two runs in sequence yield changed = true then
changed = false; with state present and no attribute-update list, the
first run creates the group with changed = true and the second run fails
validation instead of succeeding. -/
theorem reconcile_twice_amended (p q : ECParams) (w v : List String)
    (hp : p.state = "absent")
    (hpd : truthyStr p.description = false)
    (hpf : truthyStr p.cache_parameter_group_family = false)
    (hpv : truthyList p.parameter_name_values = false)
    (hmem : w.contains (pyLower p.name) = true)
    (hq : q.state = "present") (hqn : q.name ≠ "")
    (hqd : truthyStr q.description = true)
    (hqf : truthyStr q.cache_parameter_group_family = true)
    (hqv : q.parameter_name_values = none)
    (hnv : v.contains (pyLower q.name) = false) :
    ((runStep p w).1 = .exit true ∧ (runStep p (runStep p w).2).1 = .exit false) ∧
    ((runStep q v).1 = .exit true ∧ isFail (runStep q (runStep q v).2).1 = true) := by
  have habs1 : ec_main p (honestConn w) =
      (.exit true, [.describe (pyLower p.name), .delete (pyLower p.name)]) := by
    rw [ec_main_absent_valid _ _ hp hpd hpf hpv,
      ec_try_found _ _ _ (honestConn_found w _ hmem),
      ec_branch_absent_found _ _ _ hp]
    rfl
  have hw2 : (runStep p w).2 = w.filter (fun x => x != pyLower p.name) := by
    unfold runStep
    rw [habs1]
    rfl
  have habs2 : ec_main p (honestConn ((runStep p w).2)) =
      (.exit false, [.describe (pyLower p.name)]) := by
    rw [hw2, ec_main_absent_valid _ _ hp hpd hpf hpv,
      ec_try_not_found _ _ _
        (honestConn_not_found _ _ (filter_ne_contains_false w (pyLower p.name))),
      ec_branch_absent_no_group _ _ _ hp]
  have hpre1 : ec_main q (honestConn v) =
      (.exit true, [.describe (pyLower q.name),
        .create (pyLower q.name) q.cache_parameter_group_family q.description]) := by
    rw [ec_main_present_valid _ _ hq hqn hqd,
      ec_try_not_found _ _ _ (honestConn_not_found v _ hnv),
      ec_branch_present_create _ _ _ hq hqf]
    rfl
  have hv2 : (runStep q v).2 = pyLower q.name :: v := by
    unfold runStep
    rw [hpre1]
    rfl
  have hc : ((pyLower q.name :: v).contains (pyLower q.name)) = true := by simp
  have hpre2 : ec_main q (honestConn ((runStep q v).2)) =
      (.fail "Parameter parameter_name_values required for state='present' and exists",
       [.describe (pyLower q.name)]) := by
    rw [hv2, ec_main_present_valid _ _ hq hqn hqd,
      ec_try_found _ _ _ (honestConn_found _ _ hc),
      ec_branch_present_no_values _ _ _ hq (by rw [hqv]; rfl)]
  have hfst : ∀ (r : ECParams) (u : List String),
      (runStep r u).1 = (ec_main r (honestConn u)).1 := fun _ _ => rfl
  refine ⟨⟨?_, ?_⟩, ?_, ?_⟩
  · rw [hfst, habs1]
  · rw [hfst, habs2]
  · rw [hfst, hpre1]
  · rw [hfst, hpre2]
    rfl

/-- Claim C1, witness for the amended statement: a delete on a world
holding the group, and the creation playbook on an empty world. -/
theorem reconcile_twice_amended_witness :
    ((runStep pAbs ["g"]).1 = .exit true ∧
      (runStep pAbs (runStep pAbs ["g"]).2).1 = .exit false) ∧
    ((runStep pCreateOnly []).1 = .exit true ∧
      isFail (runStep pCreateOnly (runStep pCreateOnly []).2).1 = true) :=
  reconcile_twice_amended pAbs pCreateOnly ["g"] [] rfl rfl rfl rfl (by decide)
    rfl (by decide) (by decide) (by decide) rfl (by decide)

/-- Claim C2: the kinesis module diverges from the claim — a not-found
response from describe makes the module fail (and never create the
stream) instead of being treated as `exists = false`; the elasticache
module, on its not-found code, proceeds to the branch as the claim says. -/
theorem kinesis_not_found_fails_instead_of_creating :
    kinesis_main ⟨"mystream", 2⟩ kinesisNotFoundClient =
      (.fail "ResourceNotFoundException: Stream mystream not found",
        [.describe_stream "mystream"]) ∧
    ec_main pAbs (honestConn []) = (.exit false, [.describe "g"]) :=
  ⟨rfl, rfl⟩

/-- Claim C3, counterexample: the kinesis module passes the name to the
client verbatim, so with resource name `Redis_2.8_LRU` the client
receives `Redis_2.8_LRU`, not the lowercased `redis_2.8_lru`. -/
theorem kinesis_name_not_lowercased :
    (kinesis_main ⟨"Redis_2.8_LRU", 1⟩ kinesisOkClient).2 =
      [.describe_stream "Redis_2.8_LRU"] ∧
    "Redis_2.8_LRU" ≠ "redis_2.8_lru" :=
  ⟨rfl, by decide⟩

/-- Claim C3, amended: every API call of the parameter-group module uses
the lowercased name, while every API call of the kinesis module uses the
name verbatim. -/
theorem call_names_lowercased_only_in_elasticache (p : ECParams) (conn : ECConn)
    (kp : KinesisParams) (kc : KinesisClient) :
    ((ec_main p conn).2.all (fun c => callName c == pyLower p.name)) = true ∧
    ((kinesis_main kp kc).2.all (fun c => kCallName c == kp.name)) = true := by
  constructor
  · rcases ec_main_trace p conn with h | ⟨t, ht, rfl | rfl | rfl | rfl⟩ <;>
      simp [*, callName]
  · unfold kinesis_main KinesisManager.create KinesisManager.streamExists
    rcases kc.describe_stream kp.name with e | u
    · simp [kCallName]
    · dsimp only
      repeat' (split <;> try simp [kCallName])

/-- Claim C4: with state absent, supplying any of description, family, or
parameter values makes the module fail validation and issue no API call
at all. -/
theorem absent_with_attributes_fails_before_api (p : ECParams) (conn : ECConn)
    (hstate : p.state = "absent")
    (hattr : (truthyStr p.description || truthyStr p.cache_parameter_group_family
      || truthyList p.parameter_name_values) = true) :
    isFail (ec_main p conn).1 = true ∧ (ec_main p conn).2 = [] := by
  unfold ec_main
  cases hd : truthyStr p.description <;>
    cases hf : truthyStr p.cache_parameter_group_family <;>
      cases hv : truthyList p.parameter_name_values <;>
        simp_all [isFail]

/-- Claim C4, witness: absent state with a description supplied. -/
theorem absent_with_attributes_fails_before_api_witness :
    isFail (ec_main ⟨"absent", "g", some "d", none, none⟩ (honestConn ["g"])).1 = true ∧
    (ec_main ⟨"absent", "g", some "d", none, none⟩ (honestConn ["g"])).2 = [] :=
  absent_with_attributes_fails_before_api _ _ rfl (by decide)

/-- Claim C5: with state present and a describe outcome reporting the
group as not existing, a missing family makes the module fail and issue
no mutating API call. -/
theorem present_missing_family_fails_validation (p : ECParams) (conn : ECConn)
    (hstate : p.state = "present")
    (hnf : reportsNotFound (conn.describe_cache_parameter_groups (pyLower p.name)) = true)
    (hfam : truthyStr p.cache_parameter_group_family = false) :
    isFail (ec_main p conn).1 = true ∧
      (ec_main p conn).2.filter isMutating = [] := by
  unfold ec_main ec_try ec_branch
  cases hn : (p.name == "") <;> cases hd : truthyStr p.description <;>
    cases hdesc : conn.describe_cache_parameter_groups (pyLower p.name) <;>
      simp_all [isFail, isMutating, reportsNotFound]

/-- Claim C5, witness: present state with parameter values but no family,
against an empty world. -/
theorem present_missing_family_fails_validation_witness :
    isFail (ec_main pModify (honestConn [])).1 = true ∧
    (ec_main pModify (honestConn [])).2.filter isMutating = [] :=
  present_missing_family_fails_validation pModify (honestConn []) rfl (by decide) rfl

/-- Claim C6, counterexample: state present with the group existing but no
parameter values supplied: the run fails validation and issues zero
modify calls, instead of calling modify once with changed = true. -/
theorem present_no_values_no_modify_call :
    (ec_main pNoValues (honestConn ["g"])).1 =
      .fail "Parameter parameter_name_values required for state='present' and exists" ∧
    ((ec_main pNoValues (honestConn ["g"])).2.countP (fun c => isMutating c)) = 0 :=
  ⟨rfl, rfl⟩

/-- Claim C6, amended: with state present, a nonempty name, truthy
description and parameter values, and a describe outcome reporting the
group found, the run issues exactly one modify call; modify success gives
changed = true, the benign no-modifications error gives changed = false,
and any other modify error fails the run with its message. -/
theorem present_exists_modify_outcome (p : ECParams) (conn : ECConn)
    (hstate : p.state = "present") (hname : p.name ≠ "")
    (hdesc : truthyStr p.description = true)
    (hfound : reportsFound (conn.describe_cache_parameter_groups (pyLower p.name)) = true)
    (hvals : truthyList p.parameter_name_values = true) :
    ec_main p conn =
      (mutOutcome (conn.modify_cache_parameter_group (pyLower p.name) p.parameter_name_values),
       [.describe (pyLower p.name), .modify (pyLower p.name) p.parameter_name_values]) := by
  rw [ec_main_present_valid p conn hstate hname hdesc, ec_try_found p conn _ hfound,
    ec_branch_present_modify p conn _ hstate hvals]

/-- Claim C6, witness: a modify that succeeds, on an existing group. -/
theorem present_exists_modify_outcome_witness :
    ec_main pModify (honestConn ["g"]) =
      (.exit true, [.describe "g", .modify "g" (some [("activerehashing", "yes")])]) :=
  present_exists_modify_outcome pModify (honestConn ["g"]) rfl (by decide) rfl
    (by decide) rfl

/-- Claim C7: every run of either module issues at most one mutating API
call, and with state absent and a not-found describe outcome it issues
none. -/
theorem at_most_one_mutating_call (p : ECParams) (conn : ECConn)
    (kp : KinesisParams) (kc : KinesisClient) :
    ((ec_main p conn).2.countP (fun c => isMutating c)) ≤ 1 ∧
    ((kinesis_main kp kc).2.countP (fun c => isKMutating c)) ≤ 1 ∧
    (p.state = "absent" →
      reportsNotFound (conn.describe_cache_parameter_groups (pyLower p.name)) = true →
      ((ec_main p conn).2.countP (fun c => isMutating c)) = 0) := by
  refine ⟨?_, ?_, ?_⟩
  · rcases ec_main_trace p conn with h | ⟨t, ht, rfl | rfl | rfl | rfl⟩ <;>
      simp [*, isMutating]
  · unfold kinesis_main KinesisManager.create KinesisManager.streamExists
    rcases kc.describe_stream kp.name with e | u
    · simp [isKMutating]
    · dsimp only
      repeat' (split <;> try simp [isKMutating])
  · intro hstate hnf
    rcases ec_main_absent_not_found p conn hstate hnf with h | h <;>
      simp [h, isMutating]

/-- Claim C7, witness: the absent-and-not-found path issues zero mutating
calls. -/
theorem at_most_one_mutating_call_witness :
    ((ec_main pAbs (honestConn [])).2.countP (fun c => isMutating c)) = 0 :=
  (at_most_one_mutating_call pAbs (honestConn []) ⟨"s", 1⟩ kinesisOkClient).2.2
    rfl (by decide)

/-- Claim C8: with state absent and no disallowed attributes, an existing
group is deleted by exactly one delete call with changed = true (when the
delete succeeds), and a non-existing group leads to zero mutating calls
with changed = false. -/
theorem absent_branch_behavior (p : ECParams) (conn : ECConn)
    (hstate : p.state = "absent")
    (hd : truthyStr p.description = false)
    (hf : truthyStr p.cache_parameter_group_family = false)
    (hv : truthyList p.parameter_name_values = false) :
    (reportsFound (conn.describe_cache_parameter_groups (pyLower p.name)) = true →
      conn.delete_cache_parameter_group (pyLower p.name) = .ok () →
      ec_main p conn =
        (.exit true, [.describe (pyLower p.name), .delete (pyLower p.name)])) ∧
    (reportsNotFound (conn.describe_cache_parameter_groups (pyLower p.name)) = true →
      ec_main p conn = (.exit false, [.describe (pyLower p.name)])) := by
  constructor
  · intro hfound hdel
    rw [ec_main_absent_valid p conn hstate hd hf hv, ec_try_found p conn _ hfound,
      ec_branch_absent_found p conn _ hstate, hdel]
    rfl
  · intro hnf
    rw [ec_main_absent_valid p conn hstate hd hf hv, ec_try_not_found p conn _ hnf,
      ec_branch_absent_no_group p conn _ hstate]

/-- Claim C8, witness: the same absent desired state against a world with
the group and against an empty world. -/
theorem absent_branch_behavior_witness :
    ec_main pAbs (honestConn ["g"]) = (.exit true, [.describe "g", .delete "g"]) ∧
    ec_main pAbs (honestConn []) = (.exit false, [.describe "g"]) :=
  ⟨(absent_branch_behavior pAbs (honestConn ["g"]) rfl rfl rfl rfl).1 (by decide) rfl,
   (absent_branch_behavior pAbs (honestConn []) rfl rfl rfl rfl).2 (by decide)⟩

/-- Claim C9: with state present, a falsy description fails the module
with the description validation message before any API call, whatever the
connection — in particular even when the group exists and only a modify
would follow. -/
theorem present_requires_description (p : ECParams) (conn : ECConn)
    (hstate : p.state = "present") (hname : p.name ≠ "")
    (hdesc : truthyStr p.description = false) :
    ec_main p conn = (.fail "Parameter description required for state='present'", []) := by
  unfold ec_main
  simp_all

/-- Claim C9, witness: present state with parameter values against an
existing group, description omitted. -/
theorem present_requires_description_witness :
    ec_main ⟨"present", "g", none, none, some [("activerehashing", "yes")]⟩
        (honestConn ["g"]) =
      (.fail "Parameter description required for state='present'", []) :=
  present_requires_description _ _ rfl (by decide) rfl

/-- Claim C10: the no-modifications leniency lives in the outer handler
and therefore covers the delete and create branches too: each issues its
one mutating call and the run succeeds with changed = false exactly when
the raised error message is the benign one, failing with the message
otherwise. -/
theorem no_mods_leniency_all_mutating_branches (p q : ECParams) (cd cc : ECConn)
    (hp : p.state = "absent") (hpd : truthyStr p.description = false)
    (hpf : truthyStr p.cache_parameter_group_family = false)
    (hpv : truthyList p.parameter_name_values = false)
    (hfound : reportsFound (cd.describe_cache_parameter_groups (pyLower p.name)) = true)
    (hq : q.state = "present") (hqn : q.name ≠ "")
    (hqd : truthyStr q.description = true)
    (hqf : truthyStr q.cache_parameter_group_family = true)
    (hnf : reportsNotFound (cc.describe_cache_parameter_groups (pyLower q.name)) = true) :
    ec_main p cd =
      (mutOutcome (cd.delete_cache_parameter_group (pyLower p.name)),
       [.describe (pyLower p.name), .delete (pyLower p.name)]) ∧
    ec_main q cc =
      (mutOutcome (cc.create_cache_parameter_group (pyLower q.name)
          q.cache_parameter_group_family q.description),
       [.describe (pyLower q.name), .create (pyLower q.name)
          q.cache_parameter_group_family q.description]) := by
  constructor
  · rw [ec_main_absent_valid p cd hp hpd hpf hpv, ec_try_found p cd _ hfound,
      ec_branch_absent_found p cd _ hp]
  · rw [ec_main_present_valid q cc hq hqn hqd, ec_try_not_found q cc _ hnf,
      ec_branch_present_create q cc _ hq hqf]

/-- Claim C10, witness: a delete raising the benign message succeeds with
changed = false, and a create raising another message fails with it. -/
theorem no_mods_leniency_all_mutating_branches_witness :
    ec_main pAbs noModsConnFound = (.exit false, [.describe "g", .delete "g"]) ∧
    ec_main pCreateOnly errConnNotFound =
      (.fail "Some other failure",
       [.describe "redis_2.8_lru",
        .create "redis_2.8_lru" (some "redis2.8") (some "My Fancy Parameter Group")]) :=
  no_mods_leniency_all_mutating_branches pAbs pCreateOnly noModsConnFound errConnNotFound
    rfl rfl rfl rfl (by decide) rfl (by decide) (by decide) (by decide) (by decide)
